import Mathlib

/-!
Verification of the version/override resolution engine of the
install-rspack command-line tool, shallowly embedded from src/index.ts.

Pure functions of the source (toCanaryPackageName, isCanaryTag,
isSnapshotTag, isDistTag, getOverrides) are translated directly.
Effectful parts are embedded as explicit data flow:
  - the npm registry query (execa npm info ... + JSON.parse) becomes an
    oracle argument of type String -> String -> String mapping a package
    name and a dist-tag to the version string the registry returns;
  - getTargetVersion additionally reports which query, if any, it issued;
  - the manifest document becomes a structure of association lists, with
    JavaScript object spread modeled by jsMerge (observed through lookup);
  - the CI-mode top-level flow becomes a trace of events, recording the
    order of the registry query, the manifest read, the fatal
    missing-manifest error, and the manifest write.
-/

namespace InstallRspack

/-- Boolean test that the first character list is a prefix of the second,
modeling an anchored match of a JavaScript regular expression such as the
one in toCanaryPackageName. -/
def listPrefixOf : List Char → List Char → Bool
  | [], _ => true
  | _ :: _, [] => false
  | a :: as, b :: bs => a == b && listPrefixOf as bs

/-- Boolean test that the first character list occurs contiguously inside
the second, modeling the JavaScript String.prototype.includes test used in
getOverrides. -/
def listInfixOf (pat : List Char) : List Char → Bool
  | [] => listPrefixOf pat []
  | b :: bs => listPrefixOf pat (b :: bs) || listInfixOf pat bs

/-- s contains pat as a substring, modeling version.includes(pat). -/
def containsSub (s pat : String) : Bool :=
  listInfixOf pat.data s.data

/-- Source line 65: the fixed list of suite packages to be overridden. -/
def RSPACK_PACKAGES : List String := ["@rspack/core", "@rspack/cli"]

/-- Source lines 187-193: map a package name to its canary-channel name.
The source special-cases the literal create-rspack and otherwise replaces
the regular expression anchor-prefixed @rspack with @rspack-canary; the
regex replace is modeled by a prefix test on the character data (the
pattern @rspack is 7 characters long). -/
def toCanaryPackageName (name : String) : String :=
  if name = "create-rspack" then "create-rspack-canary"
  else if listPrefixOf "@rspack".data name.data then
    "@rspack-canary" ++ String.mk (name.data.drop 7)
  else name

/-- Source lines 195-197. -/
def isCanaryTag (version : String) : Bool :=
  version = "canary"

/-- Source lines 199-201. -/
def isSnapshotTag (version : String) : Bool :=
  isCanaryTag version || version = "nightly"

/-- Source lines 223-225: the recognized dist-tag set. -/
def isDistTag (raw : String) : Bool :=
  ["latest", "canary", "nightly", "alpha"].contains raw

/-- The per-package override value computed inside the map of source lines
209-220: both branches of the source produce a pair whose first component
is the package name, so the value computation is factored out here. The
inner conditional models the JavaScript truthiness test on targetVersion
(the empty string is the only falsy string). -/
def overrideValue (isSnapshot : Bool) (targetVersion : String) (name : String) : String :=
  if isSnapshot then
    "npm:" ++ toCanaryPackageName name ++
      (if targetVersion ≠ "" then "@" ++ targetVersion else "")
  else targetVersion

/-- Source lines 203-221: build the override map for a version string.
The isSnapshot flag is recomputed here from the string alone, and a
canary tag is replaced by latest before being embedded in values. -/
def getOverrides (version : String) : List (String × String) :=
  let isSnapshot := containsSub version "-canary" || isSnapshotTag version
  let targetVersion := if isCanaryTag version then "latest" else version
  RSPACK_PACKAGES.map fun name => (name, overrideValue isSnapshot targetVersion name)

/-- The body of getTargetVersion after the explicit-tag early return,
source lines 235-255. The registry oracle reg models the awaited
npm info query plus JSON.parse; the second component of the result
records the query issued (package name and dist-tag), none when the
version is not a recognized dist-tag. -/
def getTargetVersionCore (version? : Option String)
    (reg : String → String → String) : String × Option (String × String) :=
  let version := version?.getD "latest"
  if isDistTag version then
    let corePackageName :=
      if isSnapshotTag version then toCanaryPackageName "@rspack/core" else "@rspack/core"
    let distTag := if isCanaryTag version then "latest" else version
    (reg corePackageName distTag, some (corePackageName, distTag))
  else (version, none)

/-- Source lines 230-256: resolve the target version. A recognized
explicit tag argument is returned verbatim with no registry query
(source lines 232-234); otherwise the version argument, defaulted to
latest, drives the core logic. -/
def getTargetVersion (tag? version? : Option String)
    (reg : String → String → String) : String × Option (String × String) :=
  match tag? with
  | some t => if isDistTag t then (t, none) else getTargetVersionCore version? reg
  | none => getTargetVersionCore version? reg

/-- Source lines 56-57: the supported package managers, in declaration
order. -/
def SUPPORTED_PACKAGE_MANAGERS : List String := ["npm", "pnpm", "yarn"]

/-- Source lines 58-63: lockfile marker to package manager, in the
declaration order that Object.entries iterates. -/
def LOCKFILE_TO_PACKAGE_MANAGER : List (String × String) :=
  [("pnpm-lock.yaml", "pnpm"), ("yarn.lock", "yarn"),
   ("package-lock.json", "npm"), ("npm-shrinkwrap.json", "npm")]

/-- Outcome of the package-manager decision: either a package manager is
returned with no prompt, or an interactive select is shown, listing the
given options in order. -/
inductive PMResult where
  | chosen (pm : String)
  | promptSelect (options : List String)
deriving DecidableEq, Repr

/-- Source lines 141-149: the candidate accumulation loop. present is the
set of lockfile names that exist in the manifest directory, given as a
membership list; the result is the candidate array in iteration order,
with one entry per existing marker (so duplicates are possible when two
markers map to the same package manager). -/
def pmCandidates (present : List String) : List String :=
  LOCKFILE_TO_PACKAGE_MANAGER.filterMap fun p =>
    if present.contains p.1 then some p.2 else none

/-- Source lines 139-180: the package-manager decision after the explicit
pm-argument early return. In CI mode the first candidate is returned,
defaulting to npm; otherwise exactly one candidate is returned directly,
several candidates trigger a select among them, and zero candidates
trigger a select among all supported package managers. -/
def getPackageManagerCore (ci : Bool) (present : List String) : PMResult :=
  let cands := pmCandidates present
  if ci then .chosen (cands.headD "npm")
  else
    match cands with
    | [c] => .chosen c
    | [] => .promptSelect SUPPORTED_PACKAGE_MANAGERS
    | _ => .promptSelect cands

/-- Source lines 129-181: a valid explicit pm argument wins outright
(lines 132-137); otherwise lockfile detection decides. -/
def getPackageManager (pmArg : Option String) (ci : Bool)
    (present : List String) : PMResult :=
  match pmArg with
  | some pm =>
    if SUPPORTED_PACKAGE_MANAGERS.contains pm then .chosen pm
    else getPackageManagerCore ci present
  | none => getPackageManagerCore ci present

/-- JavaScript property read on an object encoded as an association list:
the first entry with the requested key wins, absent keys give none. -/
def getProp (m : List (String × String)) (k : String) : Option String :=
  match m with
  | [] => none
  | p :: rest => if p.1 = k then some p.2 else getProp rest k

/-- JavaScript object spread with right precedence, as in the source
expression spreading the old override object and then the new one:
entries of b win over entries of a with the same key, entries of a with
keys absent from b are preserved. Observed through getProp. -/
def jsMerge (a b : List (String × String)) : List (String × String) :=
  a.filter (fun p => (getProp b p.1).isNone) ++ b

/-- JavaScript assignment to an existing object key: replace the value at
key k, leaving all other entries unchanged. -/
def setKey (m : List (String × String)) (k v : String) : List (String × String) :=
  m.map fun p => if p.1 = k then (k, v) else p

/-- One iteration of the direct-dependency rewrite loop of source lines
275-285, for one dependency section and one suite package name: when the
section has a truthy entry for the name (the empty string is the only
falsy string), assign the override value to it. -/
def rewriteOne (ov : List (String × String)) (d : List (String × String))
    (name : String) : List (String × String) :=
  match getProp d name with
  | some v =>
    if v ≠ "" then
      match getProp ov name with
      | some w => setKey d name w
      | none => d
    else d
  | none => d

/-- Source lines 275-285, restricted to one dependency section: the three
sections are handled independently by the source loop, so the loop over
suite package names is applied per section. -/
def rewriteDirectDeps (ov deps : List (String × String)) : List (String × String) :=
  RSPACK_PACKAGES.foldl (rewriteOne ov) deps

/-- The pnpm.peerDependencyRules sub-object of the manifest. -/
structure PeerRules where
  allowAny : Option (List String) := none
deriving Repr

/-- The pnpm sub-object of the manifest. -/
structure PnpmSection where
  overrides : Option (List (String × String)) := none
  peerDependencyRules : Option PeerRules := none
deriving Repr

/-- The parsed package.json manifest, restricted to the fields the
mutator touches. Absent JSON fields are none. -/
structure Pkg where
  overrides : Option (List (String × String)) := none
  dependencies : Option (List (String × String)) := none
  devDependencies : Option (List (String × String)) := none
  optionalDependencies : Option (List (String × String)) := none
  pnpm : Option PnpmSection := none
  resolutions : Option (List (String × String)) := none
deriving Repr

/-- Source lines 261-311, the in-memory mutation (the final write-back is
modeled in the CI trace below). Spreading a possibly-undefined object is
modeled by defaulting the absent field to the empty list, and the
JavaScript nullish-coalescing assignments creating missing sub-objects
are modeled by Option.getD with empty defaults. -/
def addOverridesToPackageJson (pm : String) (targetVersion : String) (pkg : Pkg) : Pkg :=
  if pm = "npm" then
    let ov := getOverrides targetVersion
    { pkg with
      overrides := some (jsMerge (pkg.overrides.getD []) ov),
      dependencies := pkg.dependencies.map (rewriteDirectDeps ov),
      devDependencies := pkg.devDependencies.map (rewriteDirectDeps ov),
      optionalDependencies := pkg.optionalDependencies.map (rewriteDirectDeps ov) }
  else if pm = "pnpm" then
    let ov := getOverrides targetVersion
    let p := pkg.pnpm.getD ⟨none, none⟩
    let pr := p.peerDependencyRules.getD ⟨none⟩
    let allow := pr.allowAny.getD []
    { pkg with
      pnpm := some
        { overrides := some (jsMerge (p.overrides.getD []) ov),
          peerDependencyRules := some ⟨some (allow ++ ["@rspack/*"])⟩ } }
  else if pm = "yarn" then
    { pkg with
      resolutions := some (jsMerge (pkg.resolutions.getD []) (getOverrides targetVersion)) }
  else pkg

/-- Observable effects of one CI-mode run, in order. -/
inductive Event where
  | registryQuery (pkg tag : String)
  | readManifest
  | configError
  | writeManifest
deriving DecidableEq, Repr

/-- Source lines 92-103 (the CI-mode top-level flow) as an event trace:
getTargetVersion runs first and may issue a registry query; only then
does addOverridesToPackageJson call getPackageJson, which checks that
the manifest file exists (source lines 85-90) and throws when it does
not, before any write; on success the mutated manifest is written back
(source lines 313-318). -/
def ciTrace (tag? version? : Option String) (reg : String → String → String)
    (manifestExists : Bool) : List Event :=
  let r := getTargetVersion tag? version? reg
  let pre := match r.2 with
    | some q => [Event.registryQuery q.1 q.2]
    | none => []
  if manifestExists then pre ++ [Event.readManifest, Event.writeManifest]
  else pre ++ [Event.configError]

/-! Helper lemmas about the list and object primitives. -/

theorem listPrefixOf_append (l r : List Char) : listPrefixOf l (l ++ r) = true := by
  induction l with
  | nil => rfl
  | cons a as ih => simp [listPrefixOf, ih]

theorem getProp_jsMerge_right (a b : List (String × String)) (k v : String)
    (h : getProp b k = some v) : getProp (jsMerge a b) k = some v := by
  unfold jsMerge
  induction a with
  | nil => simpa [getProp]
  | cons p as ih =>
    by_cases hb : (getProp b p.1).isNone
    · rw [List.filter_cons_of_pos (by simpa using hb), List.cons_append]
      have hpk : p.1 ≠ k := by
        intro he
        rw [he, h] at hb
        simp at hb
      simpa [getProp, hpk] using ih
    · rw [List.filter_cons_of_neg (by simpa using hb)]
      exact ih

theorem getProp_jsMerge_left (a b : List (String × String)) (k : String)
    (h : getProp b k = none) : getProp (jsMerge a b) k = getProp a k := by
  unfold jsMerge
  induction a with
  | nil => simpa [getProp]
  | cons p as ih =>
    by_cases hpk : p.1 = k
    · rw [List.filter_cons_of_pos (by simp [hpk, h]), List.cons_append]
      simp [getProp, hpk]
    · by_cases hb : (getProp b p.1).isNone
      · rw [List.filter_cons_of_pos (by simpa using hb), List.cons_append]
        simpa [getProp, hpk] using ih
      · rw [List.filter_cons_of_neg (by simpa using hb), ih]
        simp [getProp, hpk]

theorem getProp_setKey_self (m : List (String × String)) (k v w : String)
    (h : getProp m k = some w) : getProp (setKey m k v) k = some v := by
  induction m with
  | nil => simp [getProp] at h
  | cons p rest ih =>
    by_cases hpk : p.1 = k
    · simp [setKey, getProp, hpk]
    · rw [getProp, if_neg hpk] at h
      simpa [setKey, getProp, hpk] using ih h

theorem getProp_setKey_ne (m : List (String × String)) (k v q : String)
    (h : q ≠ k) : getProp (setKey m k v) q = getProp m q := by
  induction m with
  | nil => simp [setKey, getProp]
  | cons p rest ih =>
    by_cases hpk : p.1 = k
    · have hkq : ¬ k = q := fun he => h he.symm
      simp [setKey, getProp, hpk, hkq]
      simpa [setKey] using ih
    · by_cases hpq : p.1 = q
      · simp [setKey, getProp, hpk, hpq, h]
      · simp [setKey, getProp, hpk, hpq]
        simpa [setKey] using ih

theorem getProp_rewriteOne_ne (ov d : List (String × String)) (name q : String)
    (h : q ≠ name) : getProp (rewriteOne ov d name) q = getProp d q := by
  cases hd : getProp d name with
  | none => unfold rewriteOne; rw [hd]
  | some v =>
    unfold rewriteOne
    rw [hd]
    dsimp only
    by_cases hv : v ≠ ""
    · rw [if_pos hv]
      cases ho : getProp ov name with
      | none => dsimp only
      | some w =>
        dsimp only
        exact getProp_setKey_ne d name w q h
    · rw [if_neg hv]

theorem getProp_rewriteOne_self (ov d : List (String × String)) (name v w : String)
    (hd : getProp d name = some v) (hv : v ≠ "") (ho : getProp ov name = some w) :
    getProp (rewriteOne ov d name) name = some w := by
  unfold rewriteOne
  rw [hd]
  dsimp only
  rw [if_pos hv, ho]
  exact getProp_setKey_self d name w v hd

theorem rewriteDirectDeps_core (ov d : List (String × String)) (v w : String)
    (hd : getProp d "@rspack/core" = some v) (hv : v ≠ "")
    (ho : getProp ov "@rspack/core" = some w) :
    getProp (rewriteDirectDeps ov d) "@rspack/core" = some w := by
  unfold rewriteDirectDeps RSPACK_PACKAGES
  simp only [List.foldl_cons, List.foldl_nil]
  rw [getProp_rewriteOne_ne ov _ "@rspack/cli" "@rspack/core" (by decide)]
  exact getProp_rewriteOne_self ov d "@rspack/core" v w hd hv ho

theorem getProp_getOverrides_core (version : String) :
    getProp (getOverrides version) "@rspack/core" =
      some (overrideValue (containsSub version "-canary" || isSnapshotTag version)
        (if isCanaryTag version then "latest" else version) "@rspack/core") := by
  simp [getOverrides, RSPACK_PACKAGES, getProp]

theorem append_ne_create_rspack (s : String) : ("@rspack" ++ s) ≠ "create-rspack" := by
  intro h
  have hd : ("@rspack" ++ s).data = "create-rspack".data := congrArg String.data h
  rw [String.data_append] at hd
  rw [show "@rspack".data = '@' :: "rspack".data from rfl] at hd
  rw [show "create-rspack".data = 'c' :: "reate-rspack".data from rfl] at hd
  rw [List.cons_append] at hd
  injection hd with h1 _
  exact absurd h1 (by decide)

theorem toCanary_append (s : String) :
    toCanaryPackageName ("@rspack" ++ s) = "@rspack-canary" ++ s := by
  unfold toCanaryPackageName
  rw [if_neg (append_ne_create_rspack s)]
  have hp : listPrefixOf "@rspack".data ("@rspack" ++ s).data = true := by
    rw [String.data_append]
    exact listPrefixOf_append "@rspack".data s.data
  rw [if_pos hp]
  exact congrArg (fun l => "@rspack-canary" ++ String.mk l)
    (by rw [String.data_append, show (7 : Nat) = "@rspack".data.length from rfl,
            List.drop_left])

theorem getOverrides_core_of_marker (v : String) (h : containsSub v "-canary" = true) :
    getProp (getOverrides v) "@rspack/core" = some ("npm:@rspack-canary/core@" ++ v) := by
  have hnc : isCanaryTag v = false := by
    rcases eq_or_ne v "canary" with rfl | hne
    · exact absurd h (by decide)
    · simp [isCanaryTag, hne]
  have hne : v ≠ "" := by
    rintro rfl
    exact absurd h (by decide)
  rw [getProp_getOverrides_core, h, hnc]
  simp only [Bool.true_or, if_false, Bool.false_eq_true]
  rw [overrideValue, if_pos rfl, if_pos hne]
  rw [show toCanaryPackageName "@rspack/core" = "@rspack-canary/core" from rfl]
  rw [← String.append_assoc]
  rfl

/-- A sample manifest used by witness theorems: one unrelated override key
and one direct devDependencies entry on a suite package. -/
def samplePkg : Pkg :=
  { overrides := some [("left-pad", "1.0.0")],
    devDependencies := some [("@rspack/core", "1.0.0")] }

/-! The claims. -/

/-- Claim C1: building overrides for the non-snapshot concrete version
1.3.13 yields the literal 1.3.13 for every suite package name, and for
the snapshot version 1.3.13-canary-e56725ae-20250529070819 it yields,
for @rspack/core, the aliased value
npm:@rspack-canary/core@1.3.13-canary-e56725ae-20250529070819. The first
and third conjuncts check the isSnapshot flags the source derives for
these two versions. -/
theorem c1_overrides_exact_and_snapshot :
    (containsSub "1.3.13" "-canary" || isSnapshotTag "1.3.13") = false
  ∧ (RSPACK_PACKAGES.all fun name =>
      getProp (getOverrides "1.3.13") name == some "1.3.13") = true
  ∧ (containsSub "1.3.13-canary-e56725ae-20250529070819" "-canary"
      || isSnapshotTag "1.3.13-canary-e56725ae-20250529070819") = true
  ∧ getProp (getOverrides "1.3.13-canary-e56725ae-20250529070819") "@rspack/core"
      = some "npm:@rspack-canary/core@1.3.13-canary-e56725ae-20250529070819" := by
  decide

/-- Claim C2, counterexample: with the explicit tag argument latest and a
registry that would answer 1.2.3, the target version is the tag name
latest itself and no registry query is issued, contradicting the claim
that a tag-classified run always uses the registry-returned concrete
version. -/
theorem c2_counterexample :
    getTargetVersion (some "latest") none (fun _ _ => "1.2.3") = ("latest", none)
  ∧ isDistTag "latest" = true
  ∧ ("latest" : String) ≠ "1.2.3" := by
  refine ⟨rfl, by decide, by decide⟩

/-- Claim C2 amended: only when the tag argument is absent or unrecognized
and the version argument is a recognized dist-tag does the run query the
registry (snapshot-mapped package for snapshot tags, canary replaced by
latest) and use the returned concrete version; a recognized explicit tag
argument is returned verbatim with no registry query. -/
theorem c2_amended_tag_verbatim_version_queried (t v : String) (v? : Option String)
    (reg : String → String → String) (ht : isDistTag t = true) (hv : isDistTag v = true) :
    getTargetVersion (some t) v? reg = (t, none)
  ∧ getTargetVersion none (some v) reg =
      (reg (if isSnapshotTag v then toCanaryPackageName "@rspack/core" else "@rspack/core")
           (if isCanaryTag v then "latest" else v),
       some (if isSnapshotTag v then toCanaryPackageName "@rspack/core" else "@rspack/core",
             if isCanaryTag v then "latest" else v)) := by
  constructor
  · simp [getTargetVersion, ht]
  · simp [getTargetVersion, getTargetVersionCore, hv]

/-- Witness for the amended claim C2, at tag latest and version nightly. -/
theorem c2_witness :
    getTargetVersion (some "latest") none (fun _ _ => "9.9.9") = ("latest", none)
  ∧ getTargetVersion none (some "nightly") (fun _ _ => "9.9.9")
      = ("9.9.9", some ("@rspack-canary/core", "nightly")) := by
  have h := c2_amended_tag_verbatim_version_queried "latest" "nightly" none
    (fun _ _ => "9.9.9") (by decide) (by decide)
  exact ⟨h.1, h.2⟩

/-- Claim C3, counterexample: a nightly run whose registry answer 1.4.0
does not contain the -canary marker produces the plain value 1.4.0 for
@rspack/core, not a snapshot-mapped alias, contradicting the claim that
any SnapshotTag run snapshot-maps for every returned version string. -/
theorem c3_counterexample :
    getProp (getOverrides
        (getTargetVersion none (some "nightly") (fun _ _ => "1.4.0")).1) "@rspack/core"
      = some "1.4.0"
  ∧ containsSub "1.4.0" "-canary" = false
  ∧ (some "1.4.0" : Option String)
      ≠ some ("npm:" ++ toCanaryPackageName "@rspack/core" ++ "@1.4.0") := by
  refine ⟨rfl, by decide, by decide⟩

/-- Claim C3 amended: the snapshot flag is recomputed from the resolved
version string alone, so a SnapshotTag run produces snapshot-mapped
override values exactly when the registry-returned version string
contains the -canary marker substring (as here, where it does). -/
theorem c3_amended_marker_governs (reg : String → String → String)
    (h : containsSub (reg "@rspack-canary/core" "nightly") "-canary" = true) :
    getProp (getOverrides
        (getTargetVersion none (some "nightly") reg).1) "@rspack/core"
      = some ("npm:@rspack-canary/core@" ++ reg "@rspack-canary/core" "nightly") := by
  have hres : (getTargetVersion none (some "nightly") reg).1
      = reg "@rspack-canary/core" "nightly" := rfl
  rw [hres]
  exact getOverrides_core_of_marker _ h

/-- Witness for the amended claim C3, with a registry answering a
canary-marked version string. -/
theorem c3_witness :
    getProp (getOverrides
        (getTargetVersion none (some "nightly")
          (fun _ _ => "1.3.13-canary-e56725ae-20250529070819")).1) "@rspack/core"
      = some ("npm:@rspack-canary/core@" ++ "1.3.13-canary-e56725ae-20250529070819") := by
  exact c3_amended_marker_governs _ (by decide)

/-- Claim C4, counterexample: beta is not in the recognized dist-tag set,
so the version argument beta is passed through verbatim as an Exact
specifier with no registry query, contradicting the claim that beta is a
StandardTag triggering registry resolution. -/
theorem c4_counterexample :
    isDistTag "beta" = false
  ∧ getTargetVersion none (some "beta") (fun _ _ => "9.9.9") = ("beta", none) := by
  refine ⟨by decide, rfl⟩

/-- Claim C4 amended: the recognized dist-tag set is latest, canary,
nightly and alpha; beta is not a member and is treated as an Exact
specifier passed through verbatim with no registry query, while alpha is
a member. -/
theorem c4_amended_beta_exact (reg : String → String → String) :
    getTargetVersion none (some "beta") reg = ("beta", none)
  ∧ isDistTag "beta" = false
  ∧ isDistTag "alpha" = true :=
  ⟨rfl, by decide, by decide⟩

/-- Claim C5, counterexample: a devDependencies entry for @rspack/core
whose value is the empty string appears as a direct entry but is not
overwritten (the source guards the rewrite with a JavaScript truthiness
test), even though the override section does receive 1.3.13. -/
theorem c5_counterexample :
    getProp ((addOverridesToPackageJson "npm" "1.3.13"
        { devDependencies := some [("@rspack/core", "")] }).devDependencies.getD [])
      "@rspack/core" = some ""
  ∧ getProp ((addOverridesToPackageJson "npm" "1.3.13"
        { devDependencies := some [("@rspack/core", "")] }).overrides.getD [])
      "@rspack/core" = some "1.3.13"
  ∧ (some "" : Option String) ≠ some "1.3.13" := by
  refine ⟨by decide, by decide, by decide⟩

/-- Claim C5 amended: for npm the override map is merged into the
top-level overrides section, overwriting the keys it contains and
preserving keys it does not, and every suite package appearing as a
direct devDependencies entry with a non-empty value is overwritten with
the corresponding override value (the empty string, being falsy in
JavaScript, is skipped; dependencies and optionalDependencies are
handled by the same per-section loop). -/
theorem c5_amended_npm_merge (pkg : Pkg) (tv : String) (d : List (String × String))
    (v k : String) (hd : pkg.devDependencies = some d)
    (hv : getProp d "@rspack/core" = some v) (hne : v ≠ "")
    (hk : getProp (getOverrides tv) k = none) :
    getProp ((addOverridesToPackageJson "npm" tv pkg).overrides.getD []) "@rspack/core"
      = getProp (getOverrides tv) "@rspack/core"
  ∧ getProp ((addOverridesToPackageJson "npm" tv pkg).overrides.getD []) k
      = getProp (pkg.overrides.getD []) k
  ∧ getProp ((addOverridesToPackageJson "npm" tv pkg).devDependencies.getD []) "@rspack/core"
      = getProp (getOverrides tv) "@rspack/core" := by
  have hnpm : addOverridesToPackageJson "npm" tv pkg = { pkg with
      overrides := some (jsMerge (pkg.overrides.getD []) (getOverrides tv)),
      dependencies := pkg.dependencies.map (rewriteDirectDeps (getOverrides tv)),
      devDependencies := pkg.devDependencies.map (rewriteDirectDeps (getOverrides tv)),
      optionalDependencies :=
        pkg.optionalDependencies.map (rewriteDirectDeps (getOverrides tv)) } := by
    unfold addOverridesToPackageJson
    rw [if_pos rfl]
  obtain ⟨w, hw⟩ : ∃ w, getProp (getOverrides tv) "@rspack/core" = some w :=
    ⟨_, getProp_getOverrides_core tv⟩
  refine ⟨?_, ?_, ?_⟩
  · rw [hnpm, hw]
    exact getProp_jsMerge_right _ _ _ _ hw
  · rw [hnpm]
    exact getProp_jsMerge_left _ _ _ hk
  · rw [hnpm, hw, hd]
    exact rewriteDirectDeps_core _ _ _ _ hv hne hw

/-- Witness for the amended claim C5, on the sample manifest with an
unrelated left-pad override and a 1.0.0 devDependencies entry. -/
theorem c5_witness :
    getProp ((addOverridesToPackageJson "npm" "1.3.13" samplePkg).overrides.getD [])
      "@rspack/core" = getProp (getOverrides "1.3.13") "@rspack/core"
  ∧ getProp ((addOverridesToPackageJson "npm" "1.3.13" samplePkg).overrides.getD [])
      "left-pad" = getProp (samplePkg.overrides.getD []) "left-pad"
  ∧ getProp ((addOverridesToPackageJson "npm" "1.3.13" samplePkg).devDependencies.getD [])
      "@rspack/core" = getProp (getOverrides "1.3.13") "@rspack/core" := by
  exact c5_amended_npm_merge samplePkg "1.3.13" [("@rspack/core", "1.0.0")] "1.0.0"
    "left-pad" rfl (by decide) (by decide) (by decide)

/-- Claim C6: the code contradicts the required behavior. Applying the
pnpm mutation twice to the empty manifest leaves the wildcard entry in
peerDependencyRules.allowAny twice, because the source pushes it
unconditionally without deduplication; the claim, and the specification
that flags this as a required fix, demand at most one occurrence. -/
theorem c6_pnpm_allowany_duplicated :
    ((((addOverridesToPackageJson "pnpm" "1.3.13"
          (addOverridesToPackageJson "pnpm" "1.3.13" {})).pnpm.getD
            ⟨none, none⟩).peerDependencyRules.getD ⟨none⟩).allowAny.getD []).count
      "@rspack/*" = 2 := by
  decide

/-- Claim C7, counterexample: the name @rspackfoo begins with the
characters @rspack but is not under the @rspack/ namespace, yet the
mapper rewrites it to @rspack-canaryfoo instead of returning it
unchanged, because the source regular expression anchors on @rspack
without the slash. -/
theorem c7_counterexample :
    listPrefixOf "@rspack".data "@rspackfoo".data = true
  ∧ listPrefixOf "@rspack/".data "@rspackfoo".data = false
  ∧ toCanaryPackageName "@rspackfoo" = "@rspack-canaryfoo"
  ∧ ("@rspack-canaryfoo" : String) ≠ "@rspackfoo" := by
  refine ⟨by decide, by decide, by decide, by decide⟩

/-- Claim C7 amended: the mapper sends the legacy name create-rspack to
create-rspack-canary, replaces the leading characters @rspack (with or
without a following slash) by @rspack-canary preserving the remainder,
and returns every name that neither equals create-rspack nor starts with
@rspack unchanged. -/
theorem c7_amended_prefix_replacement (s name : String)
    (h1 : listPrefixOf "@rspack".data name.data = false)
    (h2 : name ≠ "create-rspack") :
    toCanaryPackageName "create-rspack" = "create-rspack-canary"
  ∧ toCanaryPackageName ("@rspack" ++ s) = "@rspack-canary" ++ s
  ∧ toCanaryPackageName name = name := by
  refine ⟨rfl, toCanary_append s, ?_⟩
  unfold toCanaryPackageName
  rw [if_neg h2]
  simp [h1]

/-- Witness for the amended claim C7, at the suffix /core and the
unrelated name lodash. -/
theorem c7_witness :
    toCanaryPackageName "create-rspack" = "create-rspack-canary"
  ∧ toCanaryPackageName ("@rspack" ++ "/core") = "@rspack-canary" ++ "/core"
  ∧ toCanaryPackageName "lodash" = "lodash" :=
  c7_amended_prefix_replacement "/core" "lodash" (by decide) (by decide)

/-- Claim C8, counterexample: with both package-lock.json and
npm-shrinkwrap.json present the candidate list is the sequence npm, npm,
so outside CI mode an interactive select is shown instead of npm being
chosen without a prompt; the candidates form a sequence with
multiplicity, not a set. -/
theorem c8_counterexample :
    getPackageManager none false ["package-lock.json", "npm-shrinkwrap.json"]
      = PMResult.promptSelect ["npm", "npm"]
  ∧ getPackageManager none false ["package-lock.json", "npm-shrinkwrap.json"]
      ≠ PMResult.chosen "npm" := by
  refine ⟨by decide, by decide⟩

/-- Claim C8 amended: whenever the lockfile markers present produce a
one-element candidate sequence, that package manager is chosen with no
prompt in interactive as well as CI mode; when both npm lockfiles are
present the candidate sequence has two entries, so CI mode picks the
first candidate npm but interactive mode prompts. -/
theorem c8_amended_single_marker (present : List String) (pm : String) (ci : Bool)
    (h : pmCandidates present = [pm]) :
    getPackageManager none ci present = PMResult.chosen pm
  ∧ getPackageManager none true ["package-lock.json", "npm-shrinkwrap.json"]
      = PMResult.chosen "npm" := by
  refine ⟨?_, by decide⟩
  cases ci with
  | false => simp [getPackageManager, getPackageManagerCore, h]
  | true => simp [getPackageManager, getPackageManagerCore, h]

/-- Witness for the amended claim C8, at a directory containing only
yarn.lock. -/
theorem c8_witness :
    getPackageManager none false ["yarn.lock"] = PMResult.chosen "yarn"
  ∧ getPackageManager none true ["package-lock.json", "npm-shrinkwrap.json"]
      = PMResult.chosen "npm" :=
  c8_amended_single_marker ["yarn.lock"] "yarn" false (by decide)

/-- Claim C9, counterexample: in a CI run with defaulted version latest
and a missing manifest, the trace issues the registry query first and
only then fails with the configuration error, contradicting the claim
that the failure happens before any registry query. -/
theorem c9_counterexample :
    ciTrace none none (fun _ _ => "1.2.3") false
      = [Event.registryQuery "@rspack/core" "latest", Event.configError] := by
  decide

/-- Claim C9 amended: when the manifest file is missing the run always
ends in the configuration error and never writes the manifest, but the
error is raised when the manifest is first read, which is after the
registry query when the specifier is a recognized tag. -/
theorem c9_amended_no_mutation (tag? version? : Option String)
    (reg : String → String → String) :
    Event.writeManifest ∉ ciTrace tag? version? reg false
  ∧ (ciTrace tag? version? reg false).getLast? = some Event.configError := by
  unfold ciTrace
  cases hq : (getTargetVersion tag? version? reg).2 with
  | none => simp [hq]
  | some q => simp [hq, List.getLast?_concat]

/-- Claim C10: an explicit canary or nightly tag argument is passed to
the override builder as the tag name itself with no registry query; the
builder then marks it a snapshot, substitutes latest for canary, and
embeds the tag name in every alias value, so each override is the string
npm: followed by the snapshot-mapped name, an at sign, and latest
respectively nightly. -/
theorem c10_explicit_snapshot_tag (reg : String → String → String) (v? : Option String) :
    getTargetVersion (some "canary") v? reg = ("canary", none)
  ∧ getTargetVersion (some "nightly") v? reg = ("nightly", none)
  ∧ getOverrides "canary" = [("@rspack/core", "npm:@rspack-canary/core@latest"),
      ("@rspack/cli", "npm:@rspack-canary/cli@latest")]
  ∧ (RSPACK_PACKAGES.all fun name =>
      getProp (getOverrides "canary") name
        == some ("npm:" ++ toCanaryPackageName name ++ "@latest")) = true
  ∧ getOverrides "nightly" = [("@rspack/core", "npm:@rspack-canary/core@nightly"),
      ("@rspack/cli", "npm:@rspack-canary/cli@nightly")] :=
  ⟨rfl, rfl, by decide, by decide, by decide⟩

end InstallRspack
